import Mathlib

/-!
Verification of the VoiceNote Transcriber backend (src/backend/main.py)
against its natural-language specification.

The backend is a thin orchestration layer: it validates an uploaded audio
file by extension, stages it to a temporary file, transcribes it with a
speech recognizer, asks a local generation service (Ollama) to structure
the transcript, and returns JSON.  The two engines, the HTTP library, the
JSON decoder of the standard library and the filesystem are external
collaborators; they are modelled as explicit oracle inputs (outcome values
or an oracle function), and the repository's own control flow is embedded
faithfully, including its exception propagation:

  * `HTTPException` raised by the helpers is a subclass of `Exception`, so
    the request handler's `except Exception` clause catches it and
    re-raises `HTTPException(500, str(e))`;
  * the handler's `finally` block reads `temp_path`, which is unbound when
    staging raises before the assignment `temp_path = temp_file.name`,
    producing an `UnboundLocalError` and skipping the unlink.
-/

namespace VoiceNote

/-- Model of a decoded Python JSON value, as produced by `json.loads` /
`response.json()`.  Numbers are modelled as integers (no claim involves
fractional values). -/
inductive Json where
  | null
  | bool (b : Bool)
  | num (n : Int)
  | str (s : String)
  | arr (xs : List Json)
  | obj (fields : List (String × Json))

/-- Python `dict.get(key, default)` on a decoded JSON object.  The field
list represents the dict after parsing; for duplicate keys `json.loads`
keeps the last occurrence, so lookup takes the last matching pair. -/
def dictGet (fields : List (String × Json)) (key : String) (dflt : Json) : Json :=
  match (fields.filter (fun p => p.1 == key)).getLast? with
  | some p => p.2
  | none => dflt

/-- Python `type(v).__name__` for a decoded JSON value, used in the
`AttributeError` message raised by attribute lookup on a non-dict. -/
def pyTypeName : Json → String
  | .null => "NoneType"
  | .bool _ => "bool"
  | .num _ => "int"
  | .str _ => "str"
  | .arr _ => "list"
  | .obj _ => "dict"

/-- Message of the `AttributeError` raised by `v.get(...)` when `v` is not
a dict. -/
def noGetAttrMsg (typeName : String) : String :=
  "\x27" ++ typeName ++ "\x27 object has no attribute \x27get\x27"

/-- Outcome of a piece of Python code: a return value, a raised
`fastapi.HTTPException` (carrying status code and detail), or any other
raised exception (carrying `str(e)`). -/
inductive PyResult (α : Type) where
  | ok (a : α)
  | httpExc (status : Nat) (detail : String)
  | exc (msg : String)

/-- `str(e)` for a raised `HTTPException` (Starlette formats it as
`"{status_code}: {detail}"`).  Used by the handler's generic
`except Exception` clause when it re-wraps a caught exception. -/
def strHTTPException (status : Nat) (detail : String) : String :=
  Nat.repr status ++ ": " ++ detail

/-- Sequencing of Python statements: a raised exception aborts the rest of
the block and propagates. -/
def PyResult.bind {α β : Type} : PyResult α → (α → PyResult β) → PyResult β
  | .ok a, f => f a
  | .httpExc s d, _ => .httpExc s d
  | .exc m, _ => .exc m

/-! ## Speech-recognizer binding (`transcribe_audio`, main.py lines 31-38) -/

/-- `transcribe_audio`: the Whisper engine (external) either yields the
ordered list of segment texts or raises with a message.  The source joins
the segment texts with `" ".join(...)` (= `String.intercalate " "`) and
wraps engine failure in `HTTPException(500, "Transcription failed: ...")`. -/
def transcribe_audio (whisper : Except String (List String)) : PyResult String :=
  match whisper with
  | .ok segments => .ok (String.intercalate " " segments)
  | .error e => .httpExc 500 ("Transcription failed: " ++ e)

/-! ## Structuring adapter (`structure_with_ollama`, main.py lines 41-104) -/

/-- Outcome of `requests.post` to the Ollama generate endpoint: either a
`requests.exceptions.RequestException` (connection refused, timeout, ...)
with message `msg`, or an HTTP response with status code, raw body text,
and the result of `response.json()` (`Except.error` = the body is not
JSON, in which case `requests` raises its `JSONDecodeError`, itself a
`RequestException`). -/
inductive PostResult where
  | reqException (msg : String)
  | response (status_code : Nat) (text : String) (body : Except String Json)

/-- The `{title, content}` pair returned by the structuring adapter. -/
structure StructuredResult where
  title : Json
  content : Json

/-- `structure_with_ollama`: posts the prompt to Ollama and interprets the
reply.  `loads` is the oracle for the standard library `json.loads` on the
generation text (`none` = `json.JSONDecodeError`).  Faithful to the source:

  * `RequestException` from the post → `HTTPException(503, "Ollama service
    unavailable: " + str(e))` (the outer `except` clause);
  * non-200 status → `HTTPException(500, "Ollama request failed: " + text)`
    (not a `RequestException`, so it escapes the outer `except`);
  * `response.json()` failing raises `requests`' `JSONDecodeError`, a
    `RequestException`, caught by the outer clause → 503;
  * envelope not a dict → `result.get` raises `AttributeError`;
  * `"response"` field not a string → `json.loads` raises `TypeError`;
  * generation text decodes to a dict → title/content with defaults
    `"Voice Note"` / the original transcription;
  * generation text does not decode → fallback title
    `"Voice Note Transcription"` and heading-wrapped raw text;
  * generation text decodes to a non-dict → `structured_data.get` raises
    `AttributeError`, caught by neither `except json.JSONDecodeError` nor
    `except requests.exceptions.RequestException`.

`parseGenerationText` is the inner `try: structured_data =
json.loads(response_text) ... except json.JSONDecodeError:` block. -/
def parseGenerationText (loads : String → Option Json)
    (transcription response_text : String) : PyResult StructuredResult :=
  match loads response_text with
  | some (.obj structured_data) =>
    .ok { title := dictGet structured_data "title" (.str "Voice Note"),
          content := dictGet structured_data "content" (.str transcription) }
  | some other =>
    .exc (noGetAttrMsg (pyTypeName other))
  | none =>
    .ok { title := .str "Voice Note Transcription",
          content := .str ("# Voice Note Transcription\n\n" ++ response_text) }

/-- `json.loads(response_text)` is only legal on a string; the source
extracts `response_text = result.get("response", "")` from the envelope
and passes it straight to `json.loads`. -/
def handleResponseField (loads : String → Option Json) (transcription : String) :
    Json → PyResult StructuredResult
  | .str response_text => parseGenerationText loads transcription response_text
  | notAString =>
    .exc ("the JSON object must be str, bytes or bytearray, not "
          ++ pyTypeName notAString)

/-- Processing of the decoded envelope `result = response.json()`:
`result.get("response", "")` faults with `AttributeError` unless the
envelope is a dict. -/
def handleEnvelope (loads : String → Option Json) (transcription : String) :
    Json → PyResult StructuredResult
  | .obj fields => handleResponseField loads transcription (dictGet fields "response" (.str ""))
  | notADict => .exc (noGetAttrMsg (pyTypeName notADict))

def structure_with_ollama (loads : String → Option Json) (transcription : String)
    (post : PostResult) : PyResult StructuredResult :=
  match post with
  | .reqException msg => .httpExc 503 ("Ollama service unavailable: " ++ msg)
  | .response status_code text body =>
    if status_code ≠ 200 then
      .httpExc 500 ("Ollama request failed: " ++ text)
    else
      match body with
      | .error msg => .httpExc 503 ("Ollama service unavailable: " ++ msg)
      | .ok envelope => handleEnvelope loads transcription envelope

/-! ## Filename suffix (`Path(file.filename).suffix.lower()`) -/

/-- Split a character list at every occurrence of `sep`.  The result is
always nonempty; adjacent separators yield empty components. -/
def splitOnChar (sep : Char) : List Char → List (List Char)
  | [] => [[]]
  | x :: xs =>
    match splitOnChar sep xs with
    | r :: rs => if x == sep then [] :: r :: rs else (x :: r) :: rs
    | [] => [[x]]

/-- `pathlib.PurePosixPath(s).name` as a character list: the last path
component, with empty and `"."` components dropped. -/
def pathNameChars (s : String) : List Char :=
  (((splitOnChar '/' s.toList).filter
      (fun c => !c.isEmpty && c != ['.'])).getLast?).getD []

/-- Index of the last `'.'` in a character list, if any. -/
def lastDotIdx (cs : List Char) : Option Nat :=
  (((cs.enum).filter (fun p => p.2 == '.')).map (fun p => p.1)).getLast?

/-- `pathlib.PurePosixPath(s).suffix`: the substring of the name from its
last dot, provided that dot is neither the first nor the last character of
the name; otherwise the empty string. -/
def pySuffix (s : String) : String :=
  let cs := pathNameChars s
  match lastDotIdx cs with
  | some i => if 0 < i ∧ i < cs.length - 1 then String.mk (cs.drop i) else ""
  | none => ""

/-- Python `str.lower()` (character-wise lowering, as `str.lower` acts on
the ASCII extensions involved here). -/
def pyLower (s : String) : String := String.mk (s.toList.map Char.toLower)

/-- The handler's local `file_ext = Path(file.filename).suffix.lower()`. -/
def fileExt (filename : String) : String := pyLower (pySuffix filename)

/-! ## Request handler (`transcribe`, main.py lines 130-184) -/

/-- The HTTP-level outcome of the `/transcribe` handler: the success JSON
body (`success=True`, filename, transcription, title, markdown), an
`HTTPException` rendered with its status code and detail, or an exception
that escaped the handler entirely (rendered by the framework as a plain
500 with no detail from the handler). -/
inductive HandlerResponse where
  | success (filename : String) (transcription : String) (title : Json) (markdown : Json)
  | httpError (status : Nat) (detail : String)
  | unhandled (msg : String)

/-- Observable outcome of one `/transcribe` request: the response, whether
the temporary file was ever created, and whether it still exists on disk
after the handler has returned control. -/
structure TranscribeOutcome where
  response : HandlerResponse
  tempFileCreated : Bool
  tempFileExists : Bool

/-- The compiled-in allow-list of upload extensions. -/
def allowed_extensions : List String :=
  [".mp3", ".wav", ".m4a", ".ogg", ".flac", ".aac"]

/-- Detail string of the 400 validation error. -/
def unsupportedTypeMsg (file_ext : String) : String :=
  "Unsupported file type \x27" ++ file_ext ++ "\x27. Allowed: "
    ++ String.intercalate ", " allowed_extensions

/-- The statements of the handler's `try` block after staging succeeded:
transcribe the staged file, structure the transcript, build the success
body.  An exception raised by either step aborts the rest
(`PyResult.bind`). -/
def tryBody (loads : String → Option Json) (filename : String)
    (whisper : Except String (List String)) (post : PostResult) :
    PyResult HandlerResponse :=
  PyResult.bind (transcribe_audio whisper) (fun transcription =>
    PyResult.bind (structure_with_ollama loads transcription post) (fun structured =>
      PyResult.ok (HandlerResponse.success filename transcription
        structured.title structured.content)))

/-- The handler's `except Exception as e: raise HTTPException(500,
str(e))` clause: a successful body passes through; any exception —
`HTTPException` included, since it subclasses `Exception` — is re-raised
as a 500 whose detail is `str(e)`. -/
def exceptWrap : PyResult HandlerResponse → HandlerResponse
  | .ok r => r
  | .httpExc s d => .httpError 500 (strHTTPException s d)
  | .exc m => .httpError 500 m

/-- The `/transcribe` handler.  External effects are oracle inputs:

  * `loads` — the `json.loads` oracle passed through to the adapter;
  * `staging` — outcome of `await file.read()` / `temp_file.write` /
    `temp_file.flush()`, the statements before `temp_path = temp_file.name`
    (`Except.error msg` = one of them raised with message `msg`);
  * `whisper` — outcome of the Whisper engine on the staged file;
  * `post` — outcome of the `requests.post` to Ollama.

Control flow from the source: extension validation happens before the
temporary file is created; `tempfile.NamedTemporaryFile(delete=False)`
creates the file on disk; if staging raises before `temp_path` is
assigned, the `except Exception` clause re-raises `HTTPException(500,
str(e))` but the `finally` block then reads the unbound local `temp_path`,
raising `UnboundLocalError` and skipping the unlink, so the temporary file
survives; on every path on which `temp_path` was assigned, the `finally`
block unlinks the file.  `HTTPException`s raised inside `tryBody` are
caught by `except Exception` (`exceptWrap`) and re-raised as
`HTTPException(500, str(e))`. -/
def transcribe (loads : String → Option Json) (filename : String)
    (staging : Except String Unit) (whisper : Except String (List String))
    (post : PostResult) : TranscribeOutcome :=
  if allowed_extensions.contains (fileExt filename) = false then
    { response := .httpError 400 (unsupportedTypeMsg (fileExt filename)),
      tempFileCreated := false, tempFileExists := false }
  else
    match staging with
    | .error _ =>
      { response := .unhandled
          ("UnboundLocalError: cannot access local variable \x27temp_path\x27 "
            ++ "where it is not associated with a value"),
        tempFileCreated := true, tempFileExists := true }
    | .ok _ =>
      { response := exceptWrap (tryBody loads filename whisper post),
        tempFileCreated := true, tempFileExists := false }

/-! ## Health reporters (`health_check`, main.py lines 113-127) -/

/-- Outcome of the `requests.get` probe of the Ollama tags endpoint:
either any exception (timeout, connection error, ...) or a response with a
status code. -/
inductive ProbeResult where
  | exception (msg : String)
  | response (status_code : Nat)

/-- The `/health` response body. -/
structure HealthReport where
  api : String
  whisper : String
  ollama : String

/-- `health_check`: the bare `except:` clause catches every exception from
the probe, so the endpoint always returns a report (FastAPI renders a
returned dict with status 200). -/
def health_check (probe : ProbeResult) : PyResult HealthReport :=
  let ollama_status :=
    match probe with
    | .response status_code => if status_code = 200 then "healthy" else "unhealthy"
    | .exception _ => "unavailable"
  .ok { api := "healthy", whisper := "loaded", ollama := ollama_status }

/-! ## Concrete oracle instances used to instantiate the theorems -/

/-- A `json.loads` oracle under which no string decodes (every decode
raises `JSONDecodeError`). -/
def noLoads : String → Option Json := fun _ => none

/-- The generation text of the round-trip example: the JSON object with
title `"T"` and content `"C"`. -/
def tcText : String := "\x7b\"title\":\"T\",\"content\":\"C\"\x7d"

/-- A `json.loads` oracle that decodes `tcText` to the two-field object
and nothing else. -/
def tcLoads : String → Option Json := fun s =>
  if s = tcText then some (Json.obj [("title", Json.str "T"), ("content", Json.str "C")])
  else none

/-- A `json.loads` oracle that decodes the empty-object text and nothing
else. -/
def emptyObjLoads : String → Option Json := fun s =>
  if s = "\x7b\x7d" then some (Json.obj []) else none

/-- A `json.loads` oracle that decodes the empty-array text and nothing
else. -/
def arrLoads : String → Option Json := fun s =>
  if s = "[]" then some (Json.arr []) else none

/-! ## The join performed by `transcribe_audio`, seen from the spec's side -/

/-- Modelled from the spec: "the transcript equals the segment texts
joined with a single space in the order the engine returned them, with no
trimming and no filtering of empty segments" — plain recursion placing one
space between adjacent segments. -/
def specSpaceJoin : List String → String
  | [] => ""
  | [s] => s
  | s :: rest => s ++ " " ++ specSpaceJoin rest

/-- The tail a separator-join appends after the first element. -/
def sepTail (sep : String) : List String → String
  | [] => ""
  | a :: as => sep ++ a ++ sepTail sep as

theorem intercalate_go_eq_sepTail (sep : String) (as : List String) :
    ∀ acc : String, String.intercalate.go acc sep as = acc ++ sepTail sep as := by
  induction as with
  | nil => intro acc; simp [String.intercalate.go, sepTail]
  | cons a as ih =>
    intro acc
    show String.intercalate.go (acc ++ sep ++ a) sep as = _
    rw [ih]
    simp [sepTail, String.append_assoc]

theorem intercalate_space_eq_specSpaceJoin (segs : List String) :
    String.intercalate " " segs = specSpaceJoin segs := by
  cases segs with
  | nil => rfl
  | cons a as =>
    show String.intercalate.go a " " as = _
    rw [intercalate_go_eq_sepTail]
    induction as generalizing a with
    | nil => simp [sepTail, specSpaceJoin]
    | cons b bs ih =>
      show a ++ (" " ++ b ++ sepTail " " bs) = specSpaceJoin (a :: b :: bs)
      have hb := ih b
      simp only [specSpaceJoin]
      rw [← hb]
      simp [String.append_assoc]

/-- `dict.get(key, default)` returns the default when no pair carries the
key. -/
theorem dictGet_of_absent (fields : List (String × Json)) (key : String) (dflt : Json)
    (h : ∀ p ∈ fields, p.1 ≠ key) : dictGet fields key dflt = dflt := by
  unfold dictGet
  have hnil : fields.filter (fun p => p.1 == key) = [] :=
    List.filter_eq_nil_iff.mpr (fun p hp => by simpa using h p hp)
  rw [hnil]
  rfl

/-- On a validated request whose staging completed, the handler's response
is the `try` body's outcome filtered through the `except Exception`
clause. -/
theorem transcribe_ok_response (loads : String → Option Json)
    (filename : String) (segs : List String) (post : PostResult)
    (hval : allowed_extensions.contains (fileExt filename) = true) :
    (transcribe loads filename (Except.ok ()) (Except.ok segs) post).response
      = exceptWrap (PyResult.bind
          (structure_with_ollama loads (String.intercalate " " segs) post)
          (fun structured => PyResult.ok (HandlerResponse.success filename
            (String.intercalate " " segs) structured.title structured.content))) := by
  unfold transcribe
  rw [hval]
  rfl

/-- A 200 reply whose decoded envelope is a dict reduces to processing the
`"response"` field's text. -/
theorem structure_with_ollama_200 (loads : String → Option Json)
    (transcription text s : String) (envFields : List (String × Json))
    (hresp : dictGet envFields "response" (Json.str "") = Json.str s) :
    structure_with_ollama loads transcription
        (PostResult.response 200 text (Except.ok (Json.obj envFields)))
      = parseGenerationText loads transcription s := by
  show handleResponseField loads transcription
      (dictGet envFields "response" (Json.str "")) = _
  rw [hresp]
  rfl

theorem parseGenerationText_obj (loads : String → Option Json)
    (transcription s : String) (sd : List (String × Json))
    (h : loads s = some (Json.obj sd)) :
    parseGenerationText loads transcription s
      = PyResult.ok { title := dictGet sd "title" (Json.str "Voice Note"),
                      content := dictGet sd "content" (Json.str transcription) } := by
  unfold parseGenerationText
  rw [h]

theorem parseGenerationText_undecodable (loads : String → Option Json)
    (transcription s : String) (h : loads s = none) :
    parseGenerationText loads transcription s
      = PyResult.ok { title := Json.str "Voice Note Transcription",
                      content := Json.str ("# Voice Note Transcription\n\n" ++ s) } := by
  unfold parseGenerationText
  rw [h]

theorem parseGenerationText_nonobj (loads : String → Option Json)
    (transcription s : String) (j : Json) (h : loads s = some j)
    (hno : ∀ fields, j ≠ Json.obj fields) :
    parseGenerationText loads transcription s
      = PyResult.exc (noGetAttrMsg (pyTypeName j)) := by
  unfold parseGenerationText
  rw [h]
  cases j with
  | obj fields => exact absurd rfl (hno fields)
  | null => rfl
  | bool b => rfl
  | num n => rfl
  | str s2 => rfl
  | arr xs => rfl

/-- The post-staging response is built by `exceptWrap` over `tryBody` and
is therefore never the `finally` block's unbound-local fault. -/
theorem exceptWrap_tryBody_ne_unhandled (loads : String → Option Json)
    (filename : String) (whisper : Except String (List String))
    (post : PostResult) (m : String) :
    exceptWrap (tryBody loads filename whisper post)
      ≠ HandlerResponse.unhandled m := by
  unfold tryBody
  cases transcribe_audio whisper with
  | ok tr =>
    show exceptWrap (PyResult.bind
      (structure_with_ollama loads tr post) _) ≠ _
    cases structure_with_ollama loads tr post with
    | ok st => exact fun h => HandlerResponse.noConfusion h
    | httpExc s d => exact fun h => HandlerResponse.noConfusion h
    | exc m2 => exact fun h => HandlerResponse.noConfusion h
  | httpExc s d => exact fun h => HandlerResponse.noConfusion h
  | exc m2 => exact fun h => HandlerResponse.noConfusion h

/-! ## Claims -/

/-- Claim C1, counterexample: with the Structuring Service unreachable at
the network level (a `RequestException` from `requests.post`), the
`HTTPException(503, ...)` raised by `structure_with_ollama` is caught by
the handler's `except Exception` clause and re-raised as status 500, so
the caller sees 500, not 503 as claimed. -/
theorem C1_counterexample :
    (transcribe noLoads "a.mp3" (Except.ok ()) (Except.ok ["hi"])
        (PostResult.reqException "refused")).response
      = HandlerResponse.httpError 500 "503: Ollama service unavailable: refused" := rfl

/-- Claim C1, amended: for every `/transcribe` request that passes
validation and stages and transcribes successfully, a network-level
failure reaching the Structuring Service yields an error response with
status 500 whose detail records the original 503 unavailability message,
and the response carries no markdown field (it is not a success body). -/
theorem C1_unreachable_maps_to_500 (loads : String → Option Json)
    (filename msg : String) (segs : List String)
    (hval : allowed_extensions.contains (fileExt filename) = true) :
    (transcribe loads filename (Except.ok ()) (Except.ok segs)
        (PostResult.reqException msg)).response
      = HandlerResponse.httpError 500
          (strHTTPException 503 ("Ollama service unavailable: " ++ msg))
    ∧ ∀ fn tr t md,
        (transcribe loads filename (Except.ok ()) (Except.ok segs)
            (PostResult.reqException msg)).response
          ≠ HandlerResponse.success fn tr t md := by
  have key : (transcribe loads filename (Except.ok ()) (Except.ok segs)
      (PostResult.reqException msg)).response
      = HandlerResponse.httpError 500
          (strHTTPException 503 ("Ollama service unavailable: " ++ msg)) := by
    unfold transcribe
    rw [hval]
    rfl
  refine ⟨key, fun fn tr t md h => ?_⟩
  rw [key] at h
  exact HandlerResponse.noConfusion h

theorem C1_unreachable_maps_to_500_witness :
    (transcribe noLoads "a.mp3" (Except.ok ()) (Except.ok ["hi"])
        (PostResult.reqException "refused")).response
      = HandlerResponse.httpError 500
          (strHTTPException 503 ("Ollama service unavailable: " ++ "refused")) :=
  (C1_unreachable_maps_to_500 noLoads "a.mp3" "refused" ["hi"] (by rfl)).1

/-- Claim C2, counterexample: a request with a valid extension whose
staging step raises before `temp_path = temp_file.name` leaves the
temporary file on disk (the `finally` block faults on the unbound
`temp_path` and never unlinks), contradicting "on every exit path ... the
staged temporary file no longer exists". -/
theorem C2_counterexample :
    allowed_extensions.contains (fileExt "a.mp3") = true
    ∧ (transcribe noLoads "a.mp3" (Except.error "read failed") (Except.ok ["hi"])
        (PostResult.reqException "refused")).tempFileExists = true :=
  ⟨rfl, rfl⟩

/-- Claim C2, amended: for every `/transcribe` request on which staging
completed (the temp-path variable was assigned), the staged temporary file
no longer exists after the handler returns control, on every exit path —
success, transcription failure, structuring failure, or any other internal
error; if staging itself raises before the assignment, the file remains. -/
theorem C2_temp_removed_when_staged (loads : String → Option Json)
    (filename : String) (whisper : Except String (List String)) (post : PostResult) :
    (transcribe loads filename (Except.ok ()) whisper post).tempFileExists = false := by
  unfold transcribe
  cases hc : allowed_extensions.contains (fileExt filename) <;> rfl

/-- Claim C3: if staging raises before `temp_path` is assigned, the
`finally` block faults on the unbound local (the exception escapes the
handler and the unlink is skipped, leaving the file); under the
precondition that staging completed and assigned the path, the cleanup
branch is safe — no unhandled exception and the file is removed. -/
theorem C3_cleanup_unbound_local :
    (∀ (loads : String → Option Json) (filename msg : String)
        (whisper : Except String (List String)) (post : PostResult),
      allowed_extensions.contains (fileExt filename) = true →
        (transcribe loads filename (Except.error msg) whisper post).response
            = HandlerResponse.unhandled
                ("UnboundLocalError: cannot access local variable \x27temp_path\x27 "
                  ++ "where it is not associated with a value")
          ∧ (transcribe loads filename (Except.error msg) whisper post).tempFileExists
              = true)
    ∧ (∀ (loads : String → Option Json) (filename : String)
        (whisper : Except String (List String)) (post : PostResult),
        (∀ m, (transcribe loads filename (Except.ok ()) whisper post).response
            ≠ HandlerResponse.unhandled m)
          ∧ (transcribe loads filename (Except.ok ()) whisper post).tempFileExists
              = false) := by
  constructor
  · intro loads filename msg whisper post hval
    unfold transcribe
    rw [hval]
    exact ⟨rfl, rfl⟩
  · intro loads filename whisper post
    constructor
    · intro m
      unfold transcribe
      cases hc : allowed_extensions.contains (fileExt filename)
      · exact fun h => HandlerResponse.noConfusion h
      · show exceptWrap (tryBody loads filename whisper post) ≠ _
        exact exceptWrap_tryBody_ne_unhandled loads filename whisper post m
    · unfold transcribe
      cases hc : allowed_extensions.contains (fileExt filename) <;> rfl

theorem C3_cleanup_unbound_local_witness :
    (transcribe noLoads "a.mp3" (Except.error "boom") (Except.ok ["hi"])
        (PostResult.reqException "refused")).tempFileExists = true :=
  (C3_cleanup_unbound_local.1 noLoads "a.mp3" "boom" (Except.ok ["hi"])
      (PostResult.reqException "refused") rfl).2

/-- Claim C4: when the Structuring Service replies HTTP 200 with an
envelope whose `"response"` field is the JSON text of the object with
title `T` and content `C`, the `/transcribe` response is the success body
with title `T` and markdown `C`, both strings unaltered. -/
theorem C4_roundtrip (loads : String → Option Json)
    (filename s T C text : String) (segs : List String)
    (envFields : List (String × Json))
    (hval : allowed_extensions.contains (fileExt filename) = true)
    (hresp : dictGet envFields "response" (Json.str "") = Json.str s)
    (hloads : loads s = some (Json.obj [("title", Json.str T), ("content", Json.str C)])) :
    (transcribe loads filename (Except.ok ()) (Except.ok segs)
        (PostResult.response 200 text (Except.ok (Json.obj envFields)))).response
      = HandlerResponse.success filename (String.intercalate " " segs)
          (Json.str T) (Json.str C) := by
  rw [transcribe_ok_response loads filename segs _ hval,
    structure_with_ollama_200 loads _ text s envFields hresp,
    parseGenerationText_obj loads _ s _ hloads]
  rfl

theorem C4_roundtrip_witness :
    (transcribe tcLoads "a.mp3" (Except.ok ()) (Except.ok ["hi"])
        (PostResult.response 200 "body"
          (Except.ok (Json.obj [("response", Json.str tcText)])))).response
      = HandlerResponse.success "a.mp3" (String.intercalate " " ["hi"])
          (Json.str "T") (Json.str "C") :=
  C4_roundtrip tcLoads "a.mp3" tcText "T" "C" "body" ["hi"]
    [("response", Json.str tcText)] rfl rfl (by rfl)

/-- Claim C5: when the Structuring Service replies HTTP 200 but its
`"response"` text does not decode as JSON, the request still succeeds,
with title `"Voice Note Transcription"` and markdown equal to the heading
`"# Voice Note Transcription"`, a blank line, then the raw undecoded
text. -/
theorem C5_undecodable_fallback (loads : String → Option Json)
    (filename s text : String) (segs : List String)
    (envFields : List (String × Json))
    (hval : allowed_extensions.contains (fileExt filename) = true)
    (hresp : dictGet envFields "response" (Json.str "") = Json.str s)
    (hloads : loads s = none) :
    (transcribe loads filename (Except.ok ()) (Except.ok segs)
        (PostResult.response 200 text (Except.ok (Json.obj envFields)))).response
      = HandlerResponse.success filename (String.intercalate " " segs)
          (Json.str "Voice Note Transcription")
          (Json.str ("# Voice Note Transcription\n\n" ++ s)) := by
  rw [transcribe_ok_response loads filename segs _ hval,
    structure_with_ollama_200 loads _ text s envFields hresp,
    parseGenerationText_undecodable loads _ s hloads]
  rfl

theorem C5_undecodable_fallback_witness :
    (transcribe noLoads "a.mp3" (Except.ok ()) (Except.ok ["hi"])
        (PostResult.response 200 "body"
          (Except.ok (Json.obj [("response", Json.str "Hello world")])))).response
      = HandlerResponse.success "a.mp3" (String.intercalate " " ["hi"])
          (Json.str "Voice Note Transcription")
          (Json.str ("# Voice Note Transcription\n\n" ++ "Hello world")) :=
  C5_undecodable_fallback noLoads "a.mp3" "Hello world" "body" ["hi"]
    [("response", Json.str "Hello world")] rfl rfl rfl

/-- Claim C6: for every sequence of recognizer segments the transcript is
the segment texts joined with a single space, in order, with no trimming
and no filtering of empty segments (refinement against the spec-side
recursion `specSpaceJoin`); in particular segments
`["Hello ", "world."]` yield `"Hello  world."` with two spaces. -/
theorem C6_space_join :
    (∀ segs : List String,
      transcribe_audio (Except.ok segs) = PyResult.ok (specSpaceJoin segs))
    ∧ transcribe_audio (Except.ok ["Hello ", "world."])
        = PyResult.ok "Hello  world." := by
  constructor
  · intro segs
    show PyResult.ok (String.intercalate " " segs) = _
    rw [intercalate_space_eq_specSpaceJoin]
  · rfl

/-- Claim C7: a declared filename whose lowercase suffix is outside the
allow-list is rejected with status 400, a detail that names the rejected
extension and the allowed set, and no temporary file is ever created (the
validation runs before `NamedTemporaryFile`). -/
theorem C7_bad_extension_rejected (loads : String → Option Json)
    (filename : String) (staging : Except String Unit)
    (whisper : Except String (List String)) (post : PostResult)
    (hbad : allowed_extensions.contains (fileExt filename) = false) :
    transcribe loads filename staging whisper post
      = { response := HandlerResponse.httpError 400 (unsupportedTypeMsg (fileExt filename)),
          tempFileCreated := false, tempFileExists := false }
    ∧ unsupportedTypeMsg (fileExt filename)
        = "Unsupported file type \x27" ++ fileExt filename
            ++ "\x27. Allowed: .mp3, .wav, .m4a, .ogg, .flac, .aac" := by
  constructor
  · unfold transcribe
    rw [hbad]
    rfl
  · simp only [unsupportedTypeMsg, String.append_assoc]
    rfl

theorem C7_bad_extension_rejected_witness :
    transcribe noLoads "evil.txt" (Except.ok ()) (Except.ok ["hi"])
        (PostResult.reqException "x")
      = { response := HandlerResponse.httpError 400 (unsupportedTypeMsg (fileExt "evil.txt")),
          tempFileCreated := false, tempFileExists := false } :=
  (C7_bad_extension_rejected noLoads "evil.txt" (Except.ok ()) (Except.ok ["hi"])
      (PostResult.reqException "x") rfl).1

/-- Claim C8: `GET /health` never raises — for every probe outcome it
returns a report (rendered with status 200) with `whisper = "loaded"` and
`api = "healthy"`; the probe classifies as `"unavailable"` on any
exception (timeout, connection error), `"healthy"` on HTTP 200, and
`"unhealthy"` on any other status. -/
theorem C8_health_never_raises :
    (∀ probe, ∃ r : HealthReport, health_check probe = PyResult.ok r
        ∧ r.api = "healthy" ∧ r.whisper = "loaded")
    ∧ (∀ msg, health_check (ProbeResult.exception msg)
        = PyResult.ok { api := "healthy", whisper := "loaded", ollama := "unavailable" })
    ∧ (∀ status_code, health_check (ProbeResult.response status_code)
        = PyResult.ok (HealthReport.mk "healthy" "loaded"
            (if status_code = 200 then "healthy" else "unhealthy"))) := by
  refine ⟨fun probe => ?_, fun msg => rfl, fun status_code => rfl⟩
  cases probe with
  | exception msg => exact ⟨_, rfl, rfl, rfl⟩
  | response status_code => exact ⟨_, rfl, rfl, rfl⟩

/-- Claim C9: when the generation text decodes to a JSON object, a missing
`"title"` field defaults the returned title to `"Voice Note"`, and a
missing `"content"` field defaults the returned content to the original
raw transcript. -/
theorem C9_missing_field_defaults (loads : String → Option Json)
    (transcription text s : String)
    (envFields fields : List (String × Json))
    (hresp : dictGet envFields "response" (Json.str "") = Json.str s)
    (hloads : loads s = some (Json.obj fields)) :
    ((∀ p ∈ fields, p.1 ≠ "title") →
      structure_with_ollama loads transcription
          (PostResult.response 200 text (Except.ok (Json.obj envFields)))
        = PyResult.ok { title := Json.str "Voice Note",
                        content := dictGet fields "content" (Json.str transcription) })
    ∧ ((∀ p ∈ fields, p.1 ≠ "content") →
      structure_with_ollama loads transcription
          (PostResult.response 200 text (Except.ok (Json.obj envFields)))
        = PyResult.ok { title := dictGet fields "title" (Json.str "Voice Note"),
                        content := Json.str transcription }) := by
  constructor
  · intro hTitle
    rw [structure_with_ollama_200 loads transcription text s envFields hresp,
      parseGenerationText_obj loads transcription s fields hloads,
      dictGet_of_absent fields "title" (Json.str "Voice Note") hTitle]
  · intro hContent
    rw [structure_with_ollama_200 loads transcription text s envFields hresp,
      parseGenerationText_obj loads transcription s fields hloads,
      dictGet_of_absent fields "content" (Json.str transcription) hContent]

theorem C9_missing_field_defaults_witness :
    structure_with_ollama emptyObjLoads "orig"
        (PostResult.response 200 "body"
          (Except.ok (Json.obj [("response", Json.str "\x7b\x7d")])))
      = PyResult.ok { title := Json.str "Voice Note", content := Json.str "orig" } := by
  have h := (C9_missing_field_defaults emptyObjLoads "orig" "body" "\x7b\x7d"
      [("response", Json.str "\x7b\x7d")] [] rfl rfl).1 (by simp)
  simpa [dictGet] using h

/-- Claim C10: a 200 reply whose generation text decodes as valid JSON
that is not a JSON object (array, string, number, boolean, null) makes
`structured_data.get` raise `AttributeError`; neither inner handler
catches it, so the request fails through the handler's generic catch with
status 500 instead of producing the malformed-reply fallback. -/
theorem C10_nonobject_decoded_json_500 (loads : String → Option Json)
    (filename s text : String) (segs : List String)
    (envFields : List (String × Json)) (j : Json)
    (hval : allowed_extensions.contains (fileExt filename) = true)
    (hresp : dictGet envFields "response" (Json.str "") = Json.str s)
    (hloads : loads s = some j)
    (hnonobj : ∀ fields, j ≠ Json.obj fields) :
    structure_with_ollama loads (String.intercalate " " segs)
        (PostResult.response 200 text (Except.ok (Json.obj envFields)))
      = PyResult.exc (noGetAttrMsg (pyTypeName j))
    ∧ (transcribe loads filename (Except.ok ()) (Except.ok segs)
        (PostResult.response 200 text (Except.ok (Json.obj envFields)))).response
      = HandlerResponse.httpError 500 (noGetAttrMsg (pyTypeName j)) := by
  have hso : structure_with_ollama loads (String.intercalate " " segs)
      (PostResult.response 200 text (Except.ok (Json.obj envFields)))
      = PyResult.exc (noGetAttrMsg (pyTypeName j)) := by
    rw [structure_with_ollama_200 loads _ text s envFields hresp,
      parseGenerationText_nonobj loads _ s j hloads hnonobj]
  refine ⟨hso, ?_⟩
  rw [transcribe_ok_response loads filename segs _ hval, hso]
  rfl

theorem C10_nonobject_decoded_json_500_witness :
    (transcribe arrLoads "a.mp3" (Except.ok ()) (Except.ok ["hi"])
        (PostResult.response 200 "body"
          (Except.ok (Json.obj [("response", Json.str "[]")])))).response
      = HandlerResponse.httpError 500 (noGetAttrMsg "list") :=
  (C10_nonobject_decoded_json_500 arrLoads "a.mp3" "[]" "body" ["hi"]
      [("response", Json.str "[]")] (Json.arr []) rfl rfl rfl
      (fun _ h => Json.noConfusion h)).2

end VoiceNote
